import Mathlib

/-!
Verification of the risk-scoring, response-simulation, backtesting and
holder-distribution logic of the solana-sniper token monitor.

The definitions below are a shallow embedding of the TypeScript sources:

* RiskScoringService (calculateRiskScore, calculateLiquidityRisk,
  calculateHoldersRisk, calculateSocialRisk, categorizeRiskLevel,
  getRecommendation, calculateConfidence, identifyPrimaryConcerns);
* ResponseSimulatorService (simulateResponse, makeInvestmentDecision,
  calculateInvestmentAmount, getRiskMultiplier,
  adjustConfidenceForMarketConditions, getSimulationProfiles);
* BacktestingService (runBacktest, calculateTradeOutcome,
  simulateTradeReturn, calculateMaxDrawdown, calculateSharpeRatio,
  getSimulationLogsInRange);
* HolderAnalyzerService (calculateDistributionMetrics,
  calculateGiniCoefficient).

JavaScript numbers are modelled as rationals.  Optional fields and the
pervasive falsy-default idiom (x or-else d, where undefined, null, 0, false
and the empty string are falsy) are modelled explicitly with Option and the
helpers orQ, orB and truthyStr.  External effects are modelled as explicit
function parameters: the token store lookup of the backtester is a
parameter getToken, the unseeded Math.random calls are a parameter rand
consulted through a running counter, and Math.sqrt is a parameter sqrtFn.
String fields that only carry human-readable prose (reasoning texts) are
not modelled; every numeric, boolean and enumerated field is.
-/

namespace SolanaSniper

/-- JS falsy-default on an optional numeric field: the value of
x or-else d, where undefined, null and 0 are falsy. -/
def orQ (x : Option ℚ) (d : ℚ) : ℚ :=
  match x with
  | none => d
  | some v => if v = 0 then d else v

/-- JS falsy-default on an optional boolean field: undefined and false
are falsy. -/
def orB (x : Option Bool) (d : Bool) : Bool :=
  match x with
  | none => d
  | some b => b || d

/-- JS truthiness of an optional string: undefined and the empty string
are falsy. -/
def truthyStr (x : Option String) : Bool :=
  match x with
  | none => false
  | some s => s != ""

/-- Risk levels, from token.schema.ts (enum RiskLevel). -/
inductive RiskLevel
  | low
  | medium
  | high
  | critical
deriving DecidableEq

/-- Security flags of a token, from token.schema.ts (interface
SecurityFlags); flags not read by the embedded logic are omitted. -/
structure SecurityFlags where
  isHoneypot : Bool
  hasRugPullRisk : Bool
  ownershipRenounced : Bool
  hasUnlimitedMinting : Bool
deriving DecidableEq

/-- Liquidity data of a token, from token.schema.ts (interface
LiquidityInfo); fields not read by the embedded logic are omitted. -/
structure LiquidityInfo where
  totalLiquidityUSD : ℚ
  lpTokensLocked : Bool
deriving DecidableEq

/-- One entry of holderAnalysis.topHolders, from token.schema.ts. -/
structure Holder where
  percentage : ℚ
  isLP : Bool
  isBurn : Bool
deriving DecidableEq

/-- Holder statistics of a token, from token.schema.ts (interface
HolderAnalysis); fields not read by the embedded logic are omitted. -/
structure HolderAnalysis where
  totalHolders : ℚ
  topHoldersConcentration : ℚ
  devWalletPercentage : ℚ
  lpPercentage : ℚ
  topHolders : List Holder
deriving DecidableEq

/-- The metadata record of a token, as read by calculateSocialRisk
(website, twitter, telegram keys). -/
structure TokenMetadata where
  website : Option String
  twitter : Option String
  telegram : Option String
deriving DecidableEq

/-- A token snapshot, from token.schema.ts (class Token), restricted to
the fields the embedded logic reads.  The object-valued fields are
Option because the schema does not require them and every access site in
the source guards them with optional chaining. -/
structure Token where
  description : Option String
  image : Option String
  securityFlags : Option SecurityFlags
  liquidityInfo : Option LiquidityInfo
  holderAnalysis : Option HolderAnalysis
  metadata : Option TokenMetadata
  riskScore : Option ℚ
deriving DecidableEq

/-- The idiom token.securityFlags?.isHoneypot in boolean position. -/
def tokenIsHoneypot (t : Token) : Bool :=
  orB (t.securityFlags.map SecurityFlags.isHoneypot) false

/-- The idiom token.liquidityInfo?.totalLiquidityUSD or-else 0. -/
def tokenLiquidityUSD (t : Token) : ℚ :=
  orQ (t.liquidityInfo.map LiquidityInfo.totalLiquidityUSD) 0

/-- The idiom token.liquidityInfo?.lpTokensLocked or-else false. -/
def tokenLpLocked (t : Token) : Bool :=
  orB (t.liquidityInfo.map LiquidityInfo.lpTokensLocked) false

/-- The idiom token.holderAnalysis?.totalHolders or-else 0. -/
def tokenHolderCount (t : Token) : ℚ :=
  orQ (t.holderAnalysis.map HolderAnalysis.totalHolders) 0

/-- Result of the honeypot analyzer, from honeypot-detector.service.ts
(interface HoneypotAnalysis), restricted to the fields the risk
aggregator reads. -/
structure HoneypotAnalysis where
  isHoneypot : Bool
  confidence : ℚ
deriving DecidableEq

/-- Result of the rugpull analyzer (interface RugpullAnalysis),
restricted to the fields the risk aggregator reads. -/
structure RugpullAnalysis where
  hasRugRisk : Bool
  riskLevel : RiskLevel
  confidence : ℚ
deriving DecidableEq

/-- The four recommendations issued by RiskScoringService. -/
inductive Recommendation
  | AVOID
  | EXTREME_CAUTION
  | MONITOR
  | ACCEPTABLE
deriving DecidableEq

/-- The two configured thresholds of RiskScoringService, read from the
environment in its constructor. -/
structure RiskConfig where
  HIGH_RISK_THRESHOLD : ℚ
  MEDIUM_RISK_THRESHOLD : ℚ
deriving DecidableEq

/-- The parseFloat fallbacks of the RiskScoringService constructor:
HIGH_RISK_THRESHOLD defaults to 0.7 and MEDIUM_RISK_THRESHOLD to 0.4. -/
def defaultRiskConfig : RiskConfig :=
  { HIGH_RISK_THRESHOLD := 0.7, MEDIUM_RISK_THRESHOLD := 0.4 }

/-- The component scores of a RiskAssessment. -/
structure ComponentScores where
  honeypot : ℚ
  rugpull : ℚ
  liquidity : ℚ
  holders : ℚ
  social : ℚ
deriving DecidableEq

/-- A risk assessment, from RiskScoringService (interface
RiskAssessment); the free-text reasoning field is not modelled. -/
structure RiskAssessment where
  overallRiskScore : ℚ
  riskLevel : RiskLevel
  confidence : ℚ
  primaryConcerns : List String
  recommendation : Recommendation
  componentScores : ComponentScores
deriving DecidableEq

/-- The aggregation weight vector hard-coded in calculateRiskScore. -/
structure Weights where
  honeypot : ℚ
  rugpull : ℚ
  liquidity : ℚ
  holders : ℚ
  social : ℚ
deriving DecidableEq

/-- The weights local constant of calculateRiskScore. -/
def weights : Weights :=
  { honeypot := 0.3, rugpull := 0.35, liquidity := 0.15, holders := 0.15,
    social := 0.05 }

/-- RiskScoringService.calculateLiquidityRisk. -/
def calculateLiquidityRisk (t : Token) : ℚ :=
  let liquidityUSD := tokenLiquidityUSD t
  let lpTokensLocked := tokenLpLocked t
  let r1 : ℚ :=
    if liquidityUSD < 1000 then 0.4
    else if liquidityUSD < 5000 then 0.2
    else if liquidityUSD < 10000 then 0.1
    else 0
  let r2 : ℚ := r1 + (if lpTokensLocked then 0 else 0.3)
  let lpPercentage := orQ (t.holderAnalysis.map HolderAnalysis.lpPercentage) 0
  let r3 : ℚ := r2 + (if lpPercentage < 0.5 then 0.2 else 0)
  min 1 r3

/-- RiskScoringService.calculateHoldersRisk. -/
def calculateHoldersRisk (t : Token) : ℚ :=
  let totalHolders := tokenHolderCount t
  let topHoldersConcentration :=
    orQ (t.holderAnalysis.map HolderAnalysis.topHoldersConcentration) 0
  let devWalletPercentage :=
    orQ (t.holderAnalysis.map HolderAnalysis.devWalletPercentage) 0
  let r1 : ℚ :=
    if totalHolders < 10 then 0.4
    else if totalHolders < 50 then 0.2
    else if totalHolders < 100 then 0.1
    else 0
  let r2 : ℚ := r1 +
    (if topHoldersConcentration > 0.7 then 0.4
     else if topHoldersConcentration > 0.5 then 0.2
     else if topHoldersConcentration > 0.3 then 0.1
     else 0)
  let r3 : ℚ := r2 +
    (if devWalletPercentage > 0.2 then 0.3
     else if devWalletPercentage > 0.1 then 0.1
     else 0)
  min 1 r3

/-- RiskScoringService.calculateSocialRisk. -/
def calculateSocialRisk (t : Token) : ℚ :=
  let hasDescription :=
    match t.description with
    | none => false
    | some s => decide (0 < s.length)
  let hasImage :=
    match t.image with
    | none => false
    | some s => s != ""
  let hasWebsite := truthyStr (t.metadata.bind TokenMetadata.website)
  let hasSocials := truthyStr (t.metadata.bind TokenMetadata.twitter) ||
    truthyStr (t.metadata.bind TokenMetadata.telegram)
  let socialSignals : ℚ :=
    (if hasDescription then 0.25 else 0) + (if hasImage then 0.25 else 0) +
    (if hasWebsite then 0.25 else 0) + (if hasSocials then 0.25 else 0)
  max 0 (1 - socialSignals)

/-- RiskScoringService.categorizeRiskLevel. -/
def categorizeRiskLevel (cfg : RiskConfig) (riskScore : ℚ) : RiskLevel :=
  if riskScore ≥ cfg.HIGH_RISK_THRESHOLD then
    (if riskScore ≥ 0.9 then RiskLevel.critical else RiskLevel.high)
  else if riskScore ≥ cfg.MEDIUM_RISK_THRESHOLD then RiskLevel.medium
  else RiskLevel.low

/-- RiskScoringService.getRecommendation. -/
def getRecommendation (riskScore : ℚ) (hp : HoneypotAnalysis)
    (rp : RugpullAnalysis) : Recommendation :=
  if hp.isHoneypot ∨ riskScore ≥ 0.8 then Recommendation.AVOID
  else if rp.riskLevel = RiskLevel.critical ∨ riskScore ≥ 0.6 then
    Recommendation.EXTREME_CAUTION
  else if riskScore ≥ 0.3 then Recommendation.MONITOR
  else Recommendation.ACCEPTABLE

/-- RiskScoringService.calculateConfidence. -/
def calculateConfidence (hp : HoneypotAnalysis) (rp : RugpullAnalysis) : ℚ :=
  min 1 ((hp.confidence + rp.confidence) / 2)

/-- RiskScoringService.identifyPrimaryConcerns. -/
def identifyPrimaryConcerns (hp : HoneypotAnalysis) (rp : RugpullAnalysis)
    (t : Token) : List String :=
  let liq := t.liquidityInfo.map LiquidityInfo.totalLiquidityUSD
  let conc := t.holderAnalysis.map HolderAnalysis.topHoldersConcentration
  let c1 : List String := if hp.isHoneypot then ["HONEYPOT DETECTED"] else []
  let c2 := c1 ++
    (if rp.riskLevel = RiskLevel.critical ∨ rp.riskLevel = RiskLevel.high then
      ["HIGH RUGPULL RISK"] else [])
  let c3 := c2 ++
    (if orQ liq 0 ≠ 0 ∧ orQ liq 0 < 5000 then ["LOW LIQUIDITY"] else [])
  let c4 := c3 ++ (if tokenLpLocked t then [] else ["LP NOT LOCKED"])
  let c5 := c4 ++
    (if orQ conc 0 ≠ 0 ∧ orQ conc 0 > 0.5 then ["HIGH HOLDER CONCENTRATION"]
     else [])
  let c6 := c5 ++
    (if orB (t.securityFlags.map SecurityFlags.ownershipRenounced) false then []
     else ["OWNERSHIP NOT RENOUNCED"])
  let c7 := c6 ++
    (if orB (t.securityFlags.map SecurityFlags.hasUnlimitedMinting) false then
      ["UNLIMITED MINTING"] else [])
  c7.take 5

/-- RiskScoringService.calculateRiskScore: aggregates the analyzer
results and the token-derived component scores into one assessment. -/
def calculateRiskScore (cfg : RiskConfig) (t : Token)
    (honeypotAnalysis : HoneypotAnalysis)
    (rugpullAnalysis : RugpullAnalysis) : RiskAssessment :=
  let honeypotScore :=
    if honeypotAnalysis.isHoneypot then honeypotAnalysis.confidence else 0
  let rugpullScore :=
    if rugpullAnalysis.hasRugRisk then rugpullAnalysis.confidence else 0
  let liquidityScore := calculateLiquidityRisk t
  let holdersScore := calculateHoldersRisk t
  let socialScore := calculateSocialRisk t
  let overallRiskScore := min 1
    (honeypotScore * weights.honeypot + rugpullScore * weights.rugpull +
     liquidityScore * weights.liquidity + holdersScore * weights.holders +
     socialScore * weights.social)
  { overallRiskScore := overallRiskScore
    riskLevel := categorizeRiskLevel cfg overallRiskScore
    confidence := calculateConfidence honeypotAnalysis rugpullAnalysis
    primaryConcerns := identifyPrimaryConcerns honeypotAnalysis rugpullAnalysis t
    recommendation := getRecommendation overallRiskScore honeypotAnalysis rugpullAnalysis
    componentScores :=
      { honeypot := honeypotScore, rugpull := rugpullScore,
        liquidity := liquidityScore, holders := holdersScore,
        social := socialScore } }

/-- The four simulated actions, from simulation-log.schema.ts
(enum SimulationAction). -/
inductive SimulationAction
  | avoid
  | monitor
  | investigate
  | flag
deriving DecidableEq

/-- The risk-tolerance presets of a simulation profile. -/
inductive RiskTolerance
  | conservative
  | moderate
  | aggressive
deriving DecidableEq

/-- A simulation profile, from ResponseSimulatorService (interface
SimulationParameters). -/
structure SimulationParameters where
  maxInvestmentUSD : ℚ
  riskTolerance : RiskTolerance
  minLiquidityUSD : ℚ
  maxRiskScore : ℚ
  requireLPLocked : Bool
  minHolders : ℚ
deriving DecidableEq

/-- Market sentiment, from interface MarketConditions. -/
inductive Sentiment
  | bearish
  | neutral
  | bullish
deriving DecidableEq

/-- A market snapshot, from interface MarketConditions (the optional
competitorAnalysis field is never read and is omitted). -/
structure MarketConditions where
  volatilityIndex : ℚ
  overallSentiment : Sentiment
  liquidityAvailable : ℚ
deriving DecidableEq

/-- A simulated decision, from simulation-log.schema.ts (interface
SimulationDecision); the free-text reasoning field is not modelled. -/
structure SimulationDecision where
  action : SimulationAction
  confidence : ℚ
  wouldInvest : Bool
  maxInvestmentUSD : Option ℚ
deriving DecidableEq

/-- ResponseSimulatorService.getRiskMultiplier.  The TypeScript union
type has exactly the three cases below; the default 0.5 arm of the
switch is unreachable. -/
def getRiskMultiplier : RiskTolerance → ℚ
  | RiskTolerance.conservative => 0.3
  | RiskTolerance.moderate => 0.6
  | RiskTolerance.aggressive => 1

/-- ResponseSimulatorService.calculateInvestmentAmount.  Note the falsy
default of the risk score is 0.5 here, unlike the 1.0 default of
makeInvestmentDecision.  The marketConditions parameter is not read by
the body, mirroring the source signature. -/
def calculateInvestmentAmount (t : Token) (mc : MarketConditions)
    (p : SimulationParameters) : SimulationDecision :=
  let riskScore := orQ t.riskScore 0.5
  let liquidityUSD := tokenLiquidityUSD t
  let riskMultiplier := getRiskMultiplier p.riskTolerance
  let baseInvestment := p.maxInvestmentUSD * riskMultiplier
  let riskAdjustment := 1 - riskScore
  let liquidityAdjustment := min 1 (liquidityUSD / 50000)
  let adjustedInvestment := baseInvestment * riskAdjustment * liquidityAdjustment
  let maxInvestmentUSD := max 0 (min adjustedInvestment (liquidityUSD * 0.05))
  if maxInvestmentUSD ≥ baseInvestment * 0.5 then
    { action := SimulationAction.monitor, confidence := 0.7,
      wouldInvest := true, maxInvestmentUSD := some maxInvestmentUSD }
  else if maxInvestmentUSD ≥ baseInvestment * 0.2 then
    { action := SimulationAction.investigate, confidence := 0.6,
      wouldInvest := true, maxInvestmentUSD := some maxInvestmentUSD }
  else
    { action := SimulationAction.monitor, confidence := 0.5,
      wouldInvest := false, maxInvestmentUSD := some maxInvestmentUSD }

/-- ResponseSimulatorService.adjustConfidenceForMarketConditions. -/
def adjustConfidenceForMarketConditions (confidence : ℚ)
    (mc : MarketConditions) : ℚ :=
  let a1 : ℚ := 1
  let a2 :=
    match mc.overallSentiment with
    | Sentiment.bearish => a1 * 0.8
    | Sentiment.bullish => a1 * 1.1
    | Sentiment.neutral => a1
  let a3 := if mc.volatilityIndex > 0.8 then a2 * 0.9 else a2
  min 1 (confidence * a3)

/-- ResponseSimulatorService.makeInvestmentDecision: the guard cascade
followed by the market-conditions confidence adjustment. -/
def makeInvestmentDecision (t : Token) (mc : MarketConditions)
    (p : SimulationParameters) : SimulationDecision :=
  let riskScore := orQ t.riskScore 1
  let liquidityUSD := tokenLiquidityUSD t
  let holderCount := tokenHolderCount t
  let lpLocked := tokenLpLocked t
  let d : SimulationDecision :=
    if tokenIsHoneypot t then
      { action := SimulationAction.avoid, confidence := 0.95,
        wouldInvest := false, maxInvestmentUSD := none }
    else if riskScore ≥ 0.8 then
      { action := SimulationAction.avoid, confidence := 0.9,
        wouldInvest := false, maxInvestmentUSD := none }
    else if riskScore ≥ p.maxRiskScore then
      { action := SimulationAction.flag, confidence := 0.8,
        wouldInvest := false, maxInvestmentUSD := none }
    else if liquidityUSD < p.minLiquidityUSD then
      { action := SimulationAction.avoid, confidence := 0.8,
        wouldInvest := false, maxInvestmentUSD := none }
    else if p.requireLPLocked && !lpLocked then
      { action := SimulationAction.avoid, confidence := 0.85,
        wouldInvest := false, maxInvestmentUSD := none }
    else if holderCount < p.minHolders then
      { action := SimulationAction.investigate, confidence := 0.7,
        wouldInvest := false, maxInvestmentUSD := none }
    else
      calculateInvestmentAmount t mc p
  { d with confidence := adjustConfidenceForMarketConditions d.confidence mc }

/-- ResponseSimulatorService.simulateResponse (the logging wrapper
around makeInvestmentDecision). -/
def simulateResponse (t : Token) (mc : MarketConditions)
    (p : SimulationParameters) : SimulationDecision :=
  makeInvestmentDecision t mc p

/-- The conservative preset of getSimulationProfiles. -/
def conservativeProfile : SimulationParameters :=
  { maxInvestmentUSD := 500, riskTolerance := RiskTolerance.conservative,
    minLiquidityUSD := 10000, maxRiskScore := 0.3, requireLPLocked := true,
    minHolders := 100 }

/-- The moderate preset of getSimulationProfiles. -/
def moderateProfile : SimulationParameters :=
  { maxInvestmentUSD := 1000, riskTolerance := RiskTolerance.moderate,
    minLiquidityUSD := 5000, maxRiskScore := 0.5, requireLPLocked := true,
    minHolders := 50 }

/-- The aggressive preset of getSimulationProfiles. -/
def aggressiveProfile : SimulationParameters :=
  { maxInvestmentUSD := 2000, riskTolerance := RiskTolerance.aggressive,
    minLiquidityUSD := 1000, maxRiskScore := 0.7, requireLPLocked := false,
    minHolders := 20 }

/-- The decision sub-record of a simulation log, from
simulation-log.schema.ts; the optional maxInvestmentUSD mirrors the
schema. -/
structure LogDecision where
  action : SimulationAction
  wouldInvest : Bool
  maxInvestmentUSD : Option ℚ
deriving DecidableEq

/-- A historical simulation log entry, from simulation-log.schema.ts
(class SimulationLog), restricted to the fields the backtester reads. -/
structure SimulationLog where
  tokenMintAddress : String
  riskScore : ℚ
  riskLevel : RiskLevel
  decision : LogDecision
deriving DecidableEq

/-- The outcome record produced by calculateTradeOutcome.  The return
field of the source is called result here (return is a keyword). -/
structure TradeOutcome where
  result : Option ℚ
  avoided : Bool
  reason : Option String
deriving DecidableEq

/-- JS falsiness of the optional maxInvestmentUSD field (undefined and 0
are falsy). -/
def numFalsy (x : Option ℚ) : Bool :=
  match x with
  | none => true
  | some v => v == 0

/-- BacktestingService.simulateTradeReturn.  The two Math.random() draws
of the source are the explicit parameters r1 and r2. -/
def simulateTradeReturn (r1 r2 : ℚ) (log : SimulationLog) : ℚ :=
  let investmentAmount := orQ log.decision.maxInvestmentUSD 0
  let riskScore := log.riskScore
  let randomFactor := (r1 - 0.5) * 2
  let riskFactor := (1 - riskScore) * 0.5
  let marketFactor := r2 * 0.3 - 0.15
  let returnPercentage := (riskFactor + marketFactor + randomFactor * 0.2) * 100
  investmentAmount * returnPercentage / 100

/-- BacktestingService.calculateTradeOutcome.  The token store lookup is
the parameter getToken; r1 and r2 stand for the Math.random() draws
consumed when (and only when) the hypothetical-return branch is
reached. -/
def calculateTradeOutcome (getToken : String → Option Token) (r1 r2 : ℚ)
    (log : SimulationLog) : TradeOutcome :=
  if log.decision.action = SimulationAction.avoid then
    let token := getToken log.tokenMintAddress
    if orB ((token.bind Token.securityFlags).map SecurityFlags.isHoneypot) false then
      { result := none, avoided := true, reason := some "honeypot" }
    else if orB ((token.bind Token.securityFlags).map SecurityFlags.hasRugPullRisk) false then
      { result := none, avoided := true, reason := some "rugpull" }
    else
      { result := none, avoided := true, reason := some "risk_management" }
  else if !log.decision.wouldInvest || numFalsy log.decision.maxInvestmentUSD then
    { result := none, avoided := true, reason := some "no_investment" }
  else
    { result := some (simulateTradeReturn r1 r2 log), avoided := false,
      reason := none }

/-- The mutable aggregates of the runBacktest loop, plus the counter of
Math.random() draws consumed so far. -/
structure BacktestAccum where
  totalReturn : ℚ
  profitableTrades : ℕ
  lossTrades : ℕ
  rugPullsAvoided : ℕ
  honeypotsStopped : ℕ
  returnsList : List ℚ
  performanceByRiskLevel : List (RiskLevel × ℕ × ℚ)
  randCtr : ℕ
deriving DecidableEq

/-- The initial loop state of runBacktest. -/
def initAccum : BacktestAccum :=
  { totalReturn := 0, profitableTrades := 0, lossTrades := 0,
    rugPullsAvoided := 0, honeypotsStopped := 0, returnsList := [],
    performanceByRiskLevel := [], randCtr := 0 }

/-- The performanceByRiskLevel object of runBacktest, modelled as an
insertion-ordered association list from risk level to the pair of the
trades counter and the running totalReturn. -/
def updatePerformance (perf : List (RiskLevel × ℕ × ℚ)) (level : RiskLevel)
    (r : ℚ) : List (RiskLevel × ℕ × ℚ) :=
  match perf with
  | [] => [(level, 1, r)]
  | (l, n, tot) :: rest =>
    if l = level then (l, n + 1, tot + r) :: rest
    else (l, n, tot) :: updatePerformance rest level r

/-- One iteration of the for-loop of runBacktest. -/
def backtestStep (getToken : String → Option Token) (rand : ℕ → ℚ)
    (acc : BacktestAccum) (log : SimulationLog) : BacktestAccum :=
  let outcome :=
    calculateTradeOutcome getToken (rand acc.randCtr) (rand (acc.randCtr + 1)) log
  if outcome.avoided then
    { acc with
      rugPullsAvoided :=
        if outcome.reason = some "rugpull" then acc.rugPullsAvoided + 1
        else acc.rugPullsAvoided
      honeypotsStopped :=
        if outcome.reason = some "honeypot" then acc.honeypotsStopped + 1
        else acc.honeypotsStopped }
  else
    match outcome.result with
    | none => acc
    | some r =>
      { acc with
        totalReturn := acc.totalReturn + r
        returnsList := acc.returnsList ++ [r]
        profitableTrades :=
          if r > 0 then acc.profitableTrades + 1 else acc.profitableTrades
        lossTrades := if r > 0 then acc.lossTrades else acc.lossTrades + 1
        performanceByRiskLevel :=
          updatePerformance acc.performanceByRiskLevel log.riskLevel r
        randCtr := acc.randCtr + 2 }

/-- BacktestingService.calculateMaxDrawdown: cumulative-sum peak
tracking.  When peak = 0 the JS source divides by zero: the resulting
NaN is coerced to 0 by the trailing or-zero when runningSum = 0, and
yields Infinity when runningSum < 0; the rational model returns 0 in
both sub-cases (no theorem below depends on this branch). -/
def calculateMaxDrawdown (returnsList : List ℚ) : ℚ :=
  if returnsList = [] then 0
  else
    let final := returnsList.foldl
      (fun s r =>
        let runningSum := s.1 + r
        let peak := if runningSum > s.2.1 then runningSum else s.2.1
        let dd := if peak = 0 then 0 else (peak - runningSum) / |peak|
        (runningSum, peak, if dd > s.2.2 then dd else s.2.2))
      ((0 : ℚ), (0 : ℚ), (0 : ℚ))
    final.2.2

/-- BacktestingService.calculateSharpeRatio.  Math.sqrt is the explicit
parameter sqrtFn. -/
def calculateSharpe (sqrtFn : ℚ → ℚ) (returnsList : List ℚ) : ℚ :=
  if returnsList = [] then 0
  else
    let n : ℚ := returnsList.length
    let avgReturn := returnsList.foldl (· + ·) 0 / n
    let variance :=
      returnsList.foldl (fun s r => s + (r - avgReturn) ^ 2) 0 / n
    let stdDev := sqrtFn variance
    if stdDev = 0 then 0 else avgReturn / stdDev

/-- One entry of the final performanceByRiskLevel report, after the
avgReturn pass of runBacktest. -/
structure PerformanceEntry where
  level : RiskLevel
  trades : ℕ
  totalReturn : ℚ
  avgReturn : ℚ
deriving DecidableEq

/-- A backtest report, from BacktestingService (interface
BacktestResult).  The sharpeRatio field of the source is called sharpe
here. -/
structure BacktestResult where
  totalSimulations : ℕ
  successRate : ℚ
  avgReturn : ℚ
  maxDrawdown : ℚ
  sharpe : ℚ
  profitableTrades : ℕ
  lossTrades : ℕ
  rugPullsAvoided : ℕ
  honeypotsStopped : ℕ
  performanceByRiskLevel : List PerformanceEntry
deriving DecidableEq

/-- The body of BacktestingService.runBacktest given the list of
simulation logs fetched for the requested range: fails outright when
the list is empty, otherwise folds the trade outcomes and aggregates. -/
def runBacktestOnLogs (getToken : String → Option Token) (rand : ℕ → ℚ)
    (sqrtFn : ℚ → ℚ) (simulationLogs : List SimulationLog) :
    Except String BacktestResult :=
  if simulationLogs = [] then
    Except.error "No simulation data available for the specified time range"
  else
    let acc := simulationLogs.foldl (backtestStep getToken rand) initAccum
    let perf := acc.performanceByRiskLevel.map
      (fun e =>
        { level := e.1, trades := e.2.1, totalReturn := e.2.2,
          avgReturn := e.2.2 / (e.2.1 : ℚ) })
    let totalTrades := acc.profitableTrades + acc.lossTrades
    let avgReturn :=
      if totalTrades > 0 then acc.totalReturn / (totalTrades : ℚ) else 0
    let successRate :=
      if totalTrades > 0 then (acc.profitableTrades : ℚ) / (totalTrades : ℚ)
      else 0
    Except.ok
      { totalSimulations := simulationLogs.length
        successRate := successRate
        avgReturn := avgReturn
        maxDrawdown := calculateMaxDrawdown acc.returnsList
        sharpe := calculateSharpe sqrtFn acc.returnsList
        profitableTrades := acc.profitableTrades
        lossTrades := acc.lossTrades
        rugPullsAvoided := acc.rugPullsAvoided
        honeypotsStopped := acc.honeypotsStopped
        performanceByRiskLevel := perf }

/-- The parameters of runBacktest, from interface BacktestParameters;
dates are modelled as rational timestamps. -/
structure BacktestParameters where
  startDate : ℚ
  endDate : ℚ
  initialBalance : ℚ
  riskTolerance : RiskTolerance
deriving DecidableEq

/-- BacktestingService.getSimulationLogsInRange: the private helper in
the source unconditionally returns the empty array. -/
def getSimulationLogsInRange (startDate endDate : ℚ) : List SimulationLog :=
  []

/-- BacktestingService.runBacktest: fetches the logs of the requested
range through getSimulationLogsInRange and runs the backtest body on
them. -/
def runBacktest (getToken : String → Option Token) (rand : ℕ → ℚ)
    (sqrtFn : ℚ → ℚ) (params : BacktestParameters) :
    Except String BacktestResult :=
  runBacktestOnLogs getToken rand sqrtFn
    (getSimulationLogsInRange params.startDate params.endDate)

/-- HolderAnalyzerService.calculateGiniCoefficient: ascending in-place
sort, then the rank-weighted accumulation loop. -/
def calculateGiniCoefficient (values : List ℚ) : ℚ :=
  if values.length = 0 then 0
  else
    let sorted := values.insertionSort (· ≤ ·)
    let n := sorted.length
    let sum := sorted.foldl (· + ·) 0
    if sum = 0 then 0
    else
      let index := (List.range n).foldl
        (fun acc (i : ℕ) => acc + (2 * ((i : ℚ) + 1) - n - 1) * sorted.getD i 0) 0
      index / (n * sum)

/-- The distribution metrics sub-record of a holder analysis. -/
structure DistributionMetrics where
  giniCoefficient : ℚ
  top10Percentage : ℚ
  top50Percentage : ℚ
deriving DecidableEq

/-- HolderAnalyzerService.calculateDistributionMetrics: filters out LP
and burn wallets, then computes the top-share sums and the Gini
coefficient of the remaining percentages. -/
def calculateDistributionMetrics (holders : List Holder) : DistributionMetrics :=
  let validHolders := holders.filter (fun h => !h.isLP && !h.isBurn)
  { giniCoefficient := calculateGiniCoefficient (validHolders.map Holder.percentage)
    top10Percentage := ((validHolders.take 10).map Holder.percentage).foldl (· + ·) 0
    top50Percentage := ((validHolders.take 50).map Holder.percentage).foldl (· + ·) 0 }

/-- Modelled from the spec, for comparison with the source translation
calculateGiniCoefficient: the rank-weighted Gini formula
G = (sum over i of (2i - n - 1) * x i) / (n * sum of x), with i ranging
from 1 to n over the ascending-sorted shares, and G = 0 when the list is
empty or the shares sum to 0. -/
def giniSpecFormula (xs : List ℚ) : ℚ :=
  let s := xs.insertionSort (· ≤ ·)
  let n := s.length
  if n = 0 then 0
  else if s.sum = 0 then 0
  else (∑ i in Finset.Icc 1 n, (2 * (i : ℚ) - n - 1) * s.getD (i - 1) 0) /
    (n * s.sum)

/-! ## Supporting lemmas -/

theorem liquidityRisk_mem (t : Token) :
    0 ≤ calculateLiquidityRisk t ∧ calculateLiquidityRisk t ≤ 1 := by
  simp only [calculateLiquidityRisk]
  refine ⟨le_min (by norm_num) ?_, min_le_left _ _⟩
  split_ifs <;> norm_num

theorem holdersRisk_mem (t : Token) :
    0 ≤ calculateHoldersRisk t ∧ calculateHoldersRisk t ≤ 1 := by
  simp only [calculateHoldersRisk]
  refine ⟨le_min (by norm_num) ?_, min_le_left _ _⟩
  split_ifs <;> norm_num

theorem socialRisk_mem (t : Token) :
    0 ≤ calculateSocialRisk t ∧ calculateSocialRisk t ≤ 1 := by
  simp only [calculateSocialRisk]
  constructor
  · exact le_max_left _ _
  · rw [max_le_iff]
    refine ⟨by norm_num, ?_⟩
    split_ifs <;> norm_num

/-! ## Claims about the risk aggregator -/

/-- C1: for every token and every pair of analyzer results (whose
confidence fields lie in the unit interval, as every analyzer
guarantees), the overallRiskScore of calculateRiskScore lies in the
interval from 0 to 1, and the five aggregation weights (honeypot 0.30,
rugpull 0.35, liquidity 0.15, holders 0.15, social 0.05) sum to exactly
1. -/
theorem C1_overall_score_bounds_and_weights (cfg : RiskConfig) (t : Token)
    (hp : HoneypotAnalysis) (rp : RugpullAnalysis)
    (hhc0 : 0 ≤ hp.confidence) (hhc1 : hp.confidence ≤ 1)
    (hrc0 : 0 ≤ rp.confidence) (hrc1 : rp.confidence ≤ 1) :
    (0 ≤ (calculateRiskScore cfg t hp rp).overallRiskScore ∧
      (calculateRiskScore cfg t hp rp).overallRiskScore ≤ 1) ∧
    weights.honeypot + weights.rugpull + weights.liquidity +
      weights.holders + weights.social = 1 := by
  have hl := liquidityRisk_mem t
  have hh := holdersRisk_mem t
  have hs := socialRisk_mem t
  have h1 : (0 : ℚ) ≤ (if hp.isHoneypot then hp.confidence else 0) := by
    split_ifs
    · exact hhc0
    · norm_num
  have h2 : (0 : ℚ) ≤ (if rp.hasRugRisk then rp.confidence else 0) := by
    split_ifs
    · exact hrc0
    · norm_num
  refine ⟨⟨?_, ?_⟩, by norm_num [weights]⟩
  · simp only [calculateRiskScore, weights]
    refine le_min (by norm_num) ?_
    have m1 := mul_nonneg h1 (by norm_num : (0 : ℚ) ≤ 0.3)
    have m2 := mul_nonneg h2 (by norm_num : (0 : ℚ) ≤ 0.35)
    have m3 := mul_nonneg hl.1 (by norm_num : (0 : ℚ) ≤ 0.15)
    have m4 := mul_nonneg hh.1 (by norm_num : (0 : ℚ) ≤ 0.15)
    have m5 := mul_nonneg hs.1 (by norm_num : (0 : ℚ) ≤ 0.05)
    linarith
  · simp only [calculateRiskScore]
    exact min_le_left _ _

/-- Closed-form witness for C1 at a concrete token and analyzer pair. -/
theorem C1_witness :
    (0 ≤ (calculateRiskScore defaultRiskConfig
        (Token.mk none none none none none none none)
        (HoneypotAnalysis.mk true 0.8)
        (RugpullAnalysis.mk true RiskLevel.high 0.6)).overallRiskScore ∧
      (calculateRiskScore defaultRiskConfig
        (Token.mk none none none none none none none)
        (HoneypotAnalysis.mk true 0.8)
        (RugpullAnalysis.mk true RiskLevel.high 0.6)).overallRiskScore ≤ 1) ∧
    weights.honeypot + weights.rugpull + weights.liquidity +
      weights.holders + weights.social = 1 :=
  C1_overall_score_bounds_and_weights defaultRiskConfig
    (Token.mk none none none none none none none)
    (HoneypotAnalysis.mk true 0.8)
    (RugpullAnalysis.mk true RiskLevel.high 0.6)
    (by norm_num) (by norm_num) (by norm_num) (by norm_num)

/-- C2: categorizeRiskLevel is the pure step function of the score and
the two configured thresholds: at or above HIGH_RISK_THRESHOLD the
level is high, or critical at or above 0.9; otherwise at or above
MEDIUM_RISK_THRESHOLD it is medium; otherwise low.  The defaults are
0.7 and 0.4. -/
theorem C2_risk_level_step_function (cfg : RiskConfig) (s : ℚ) :
    (s ≥ cfg.HIGH_RISK_THRESHOLD → s ≥ 0.9 →
      categorizeRiskLevel cfg s = RiskLevel.critical) ∧
    (s ≥ cfg.HIGH_RISK_THRESHOLD → s < 0.9 →
      categorizeRiskLevel cfg s = RiskLevel.high) ∧
    (s < cfg.HIGH_RISK_THRESHOLD → s ≥ cfg.MEDIUM_RISK_THRESHOLD →
      categorizeRiskLevel cfg s = RiskLevel.medium) ∧
    (s < cfg.HIGH_RISK_THRESHOLD → s < cfg.MEDIUM_RISK_THRESHOLD →
      categorizeRiskLevel cfg s = RiskLevel.low) ∧
    defaultRiskConfig.HIGH_RISK_THRESHOLD = 0.7 ∧
    defaultRiskConfig.MEDIUM_RISK_THRESHOLD = 0.4 := by
  refine ⟨fun h1 h2 => ?_, fun h1 h2 => ?_, fun h1 h2 => ?_, fun h1 h2 => ?_,
    rfl, rfl⟩ <;>
    · simp only [categorizeRiskLevel]
      split_ifs <;> first | rfl | (exfalso; linarith)

/-- Closed-form witness for C2 at concrete scores. -/
theorem C2_witness :
    categorizeRiskLevel defaultRiskConfig 0.95 = RiskLevel.critical ∧
    categorizeRiskLevel defaultRiskConfig 0.75 = RiskLevel.high ∧
    categorizeRiskLevel defaultRiskConfig 0.5 = RiskLevel.medium ∧
    categorizeRiskLevel defaultRiskConfig 0.1 = RiskLevel.low :=
  ⟨(C2_risk_level_step_function defaultRiskConfig 0.95).1
      (by norm_num [defaultRiskConfig]) (by norm_num),
   (C2_risk_level_step_function defaultRiskConfig 0.75).2.1
      (by norm_num [defaultRiskConfig]) (by norm_num),
   (C2_risk_level_step_function defaultRiskConfig 0.5).2.2.1
      (by norm_num [defaultRiskConfig]) (by norm_num [defaultRiskConfig]),
   (C2_risk_level_step_function defaultRiskConfig 0.1).2.2.2.1
      (by norm_num [defaultRiskConfig]) (by norm_num [defaultRiskConfig])⟩

/-- C3: getRecommendation is AVOID when the honeypot flag is set or the
score is at least 0.8; else EXTREME_CAUTION when the rugpull risk level
is critical or the score is at least 0.6; else MONITOR when the score is
at least 0.3; else ACCEPTABLE. -/
theorem C3_recommendation_cases (s : ℚ) (hp : HoneypotAnalysis)
    (rp : RugpullAnalysis) :
    (hp.isHoneypot = true ∨ s ≥ 0.8 →
      getRecommendation s hp rp = Recommendation.AVOID) ∧
    (hp.isHoneypot = false → s < 0.8 →
      rp.riskLevel = RiskLevel.critical ∨ s ≥ 0.6 →
      getRecommendation s hp rp = Recommendation.EXTREME_CAUTION) ∧
    (hp.isHoneypot = false → s < 0.8 → rp.riskLevel ≠ RiskLevel.critical →
      s < 0.6 → s ≥ 0.3 →
      getRecommendation s hp rp = Recommendation.MONITOR) ∧
    (hp.isHoneypot = false → s < 0.8 → rp.riskLevel ≠ RiskLevel.critical →
      s < 0.6 → s < 0.3 →
      getRecommendation s hp rp = Recommendation.ACCEPTABLE) := by
  refine ⟨fun h => ?_, fun hb h8 hc => ?_, fun hb h8 hc h6 h3 => ?_,
    fun hb h8 hc h6 h3 => ?_⟩
  · simp only [getRecommendation]
    rw [if_pos h]
  · have hno : ¬(hp.isHoneypot = true ∨ s ≥ 0.8) := by
      rintro (h | h)
      · rw [hb] at h; cases h
      · linarith
    simp only [getRecommendation]
    rw [if_neg hno, if_pos hc]
  · have hno : ¬(hp.isHoneypot = true ∨ s ≥ 0.8) := by
      rintro (h | h)
      · rw [hb] at h; cases h
      · linarith
    have hno2 : ¬(rp.riskLevel = RiskLevel.critical ∨ s ≥ 0.6) := by
      rintro (h | h)
      · exact hc h
      · linarith
    simp only [getRecommendation]
    rw [if_neg hno, if_neg hno2, if_pos h3]
  · have hno : ¬(hp.isHoneypot = true ∨ s ≥ 0.8) := by
      rintro (h | h)
      · rw [hb] at h; cases h
      · linarith
    have hno2 : ¬(rp.riskLevel = RiskLevel.critical ∨ s ≥ 0.6) := by
      rintro (h | h)
      · exact hc h
      · linarith
    have hno3 : ¬(s ≥ 0.3) := by linarith
    simp only [getRecommendation]
    rw [if_neg hno, if_neg hno2, if_neg hno3]

/-- Closed-form witness for C3 at concrete analyzer results. -/
theorem C3_witness :
    getRecommendation 0.85 (HoneypotAnalysis.mk false 0.2)
      (RugpullAnalysis.mk false RiskLevel.low 0.1) = Recommendation.AVOID ∧
    getRecommendation 0.65 (HoneypotAnalysis.mk false 0.2)
      (RugpullAnalysis.mk false RiskLevel.low 0.1) =
      Recommendation.EXTREME_CAUTION ∧
    getRecommendation 0.35 (HoneypotAnalysis.mk false 0.2)
      (RugpullAnalysis.mk false RiskLevel.low 0.1) = Recommendation.MONITOR ∧
    getRecommendation 0.1 (HoneypotAnalysis.mk false 0.2)
      (RugpullAnalysis.mk false RiskLevel.low 0.1) =
      Recommendation.ACCEPTABLE :=
  ⟨(C3_recommendation_cases 0.85 (HoneypotAnalysis.mk false 0.2)
      (RugpullAnalysis.mk false RiskLevel.low 0.1)).1 (Or.inr (by norm_num)),
   (C3_recommendation_cases 0.65 (HoneypotAnalysis.mk false 0.2)
      (RugpullAnalysis.mk false RiskLevel.low 0.1)).2.1 rfl (by norm_num)
      (Or.inr (by norm_num)),
   (C3_recommendation_cases 0.35 (HoneypotAnalysis.mk false 0.2)
      (RugpullAnalysis.mk false RiskLevel.low 0.1)).2.2.1 rfl (by norm_num)
      (by simp) (by norm_num) (by norm_num),
   (C3_recommendation_cases 0.1 (HoneypotAnalysis.mk false 0.2)
      (RugpullAnalysis.mk false RiskLevel.low 0.1)).2.2.2 rfl (by norm_num)
      (by simp) (by norm_num) (by norm_num)⟩

theorem orQ_some_zero (l : ℚ) : orQ (some l) 0 = l := by
  simp only [orQ]
  split_ifs with h
  · exact h.symm
  · rfl

theorem liquidityRisk_antitone (t : Token) (li : LiquidityInfo) (l₁ l₂ : ℚ)
    (h : l₁ ≤ l₂) :
    calculateLiquidityRisk
        { t with liquidityInfo := some { li with totalLiquidityUSD := l₂ } } ≤
      calculateLiquidityRisk
        { t with liquidityInfo := some { li with totalLiquidityUSD := l₁ } } := by
  simp only [calculateLiquidityRisk, tokenLiquidityUSD, tokenLpLocked,
    Option.map_some', orQ_some_zero, orB, Bool.or_false]
  split_ifs <;> exact min_le_min le_rfl (by linarith)

/-- Sample data shared by several witnesses below. -/
def emptyToken : Token := Token.mk none none none none none none none

/-- Sample liquidity record used by witnesses. -/
def sampleLiquidityInfo : LiquidityInfo :=
  { totalLiquidityUSD := 0, lpTokensLocked := true }

/-- Sample benign honeypot-analyzer result used by witnesses. -/
def hpNone : HoneypotAnalysis := { isHoneypot := false, confidence := 0 }

/-- Sample benign rugpull-analyzer result used by witnesses. -/
def rpNone : RugpullAnalysis :=
  { hasRugRisk := false, riskLevel := RiskLevel.low, confidence := 0 }

/-- C7: raising liquidityInfo.totalLiquidityUSD while holding every
other token field fixed never increases the liquidity component score
of the aggregator. -/
theorem C7_liquidity_component_antitone (cfg : RiskConfig)
    (hp : HoneypotAnalysis) (rp : RugpullAnalysis) (t : Token)
    (li : LiquidityInfo) (l₁ l₂ : ℚ) (h : l₁ ≤ l₂) :
    (calculateRiskScore cfg
        { t with liquidityInfo := some { li with totalLiquidityUSD := l₂ } }
        hp rp).componentScores.liquidity ≤
      (calculateRiskScore cfg
        { t with liquidityInfo := some { li with totalLiquidityUSD := l₁ } }
        hp rp).componentScores.liquidity := by
  have key := liquidityRisk_antitone t li l₁ l₂ h
  simpa only [calculateRiskScore] using key

/-- Closed-form witness for C7 at concrete liquidity depths. -/
theorem C7_witness :
    (calculateRiskScore defaultRiskConfig
        { emptyToken with
          liquidityInfo := some ({ sampleLiquidityInfo with totalLiquidityUSD := 20000 }) }
        hpNone rpNone).componentScores.liquidity ≤
      (calculateRiskScore defaultRiskConfig
        { emptyToken with
          liquidityInfo := some ({ sampleLiquidityInfo with totalLiquidityUSD := 2000 }) }
        hpNone rpNone).componentScores.liquidity :=
  C7_liquidity_component_antitone defaultRiskConfig hpNone rpNone emptyToken
    sampleLiquidityInfo 2000 20000 (by norm_num)

/-! ## Claims about the response simulator -/

/-- Sample honeypot token used by the C4 counterexample and witness. -/
def honeypotToken : Token :=
  { emptyToken with
    securityFlags := some (SecurityFlags.mk true false false false) }

/-- Sample bearish market snapshot. -/
def bearishMarket : MarketConditions :=
  { volatilityIndex := 0, overallSentiment := Sentiment.bearish,
    liquidityAvailable := 0 }

/-- C4 counterexample: for a honeypot token in a bearish market the
simulator does return action avoid, but its returned confidence is
0.95 scaled by the bearish adjustment 0.8, that is 0.76, not 0.95 —
refuting the claim that the returned confidence is 0.95 for every
market conditions. -/
theorem C4_counterexample :
    tokenIsHoneypot honeypotToken = true ∧
    (simulateResponse honeypotToken bearishMarket moderateProfile).confidence
      = 0.76 ∧
    (0.76 : ℚ) ≠ 0.95 := by
  refine ⟨rfl, ?_, by norm_num⟩
  simp only [simulateResponse, makeInvestmentDecision,
    adjustConfidenceForMarketConditions, honeypotToken, emptyToken,
    tokenIsHoneypot, orB, Option.map_some', bearishMarket]
  norm_num

/-- C4 (amended): for every honeypot-flagged token, market conditions
and profile, simulateResponse returns action avoid with wouldInvest
false and a pre-adjustment confidence of 0.95; the returned confidence
is 0.95 passed through the market-conditions adjustment (x0.8 bearish,
x1.1 bullish, x0.9 above volatility 0.8, capped at 1). -/
theorem C4_amended_honeypot_avoid (t : Token) (mc : MarketConditions)
    (p : SimulationParameters) (h : tokenIsHoneypot t = true) :
    (simulateResponse t mc p).action = SimulationAction.avoid ∧
    (simulateResponse t mc p).wouldInvest = false ∧
    (simulateResponse t mc p).confidence =
      adjustConfidenceForMarketConditions 0.95 mc := by
  simp only [simulateResponse, makeInvestmentDecision, h]
  norm_num

/-- Closed-form witness for the amended C4. -/
theorem C4_amended_witness :
    (simulateResponse honeypotToken bearishMarket moderateProfile).action =
      SimulationAction.avoid ∧
    (simulateResponse honeypotToken bearishMarket moderateProfile).wouldInvest
      = false ∧
    (simulateResponse honeypotToken bearishMarket moderateProfile).confidence
      = adjustConfidenceForMarketConditions 0.95 bearishMarket :=
  C4_amended_honeypot_avoid honeypotToken bearishMarket moderateProfile rfl

/-- C9: a token that is not honeypot-flagged but whose riskScore field
is absent or exactly 0 is given the falsy default 1, and the simulator
therefore returns action avoid with wouldInvest false through the
branch for scores of at least 0.8. -/
theorem C9_missing_or_zero_risk_score_avoids (t : Token)
    (mc : MarketConditions) (p : SimulationParameters)
    (hhp : tokenIsHoneypot t = false)
    (hrs : t.riskScore = none ∨ t.riskScore = some 0) :
    orQ t.riskScore 1 = 1 ∧
    (simulateResponse t mc p).action = SimulationAction.avoid ∧
    (simulateResponse t mc p).wouldInvest = false := by
  have h1 : orQ t.riskScore 1 = 1 := by
    rcases hrs with h | h <;> simp [orQ, h]
  refine ⟨h1, ?_⟩
  simp only [simulateResponse, makeInvestmentDecision, hhp, h1]
  norm_num

/-- Closed-form witness for C9: the all-defaults token. -/
theorem C9_witness :
    orQ emptyToken.riskScore 1 = 1 ∧
    (simulateResponse emptyToken bearishMarket moderateProfile).action =
      SimulationAction.avoid ∧
    (simulateResponse emptyToken bearishMarket moderateProfile).wouldInvest
      = false :=
  C9_missing_or_zero_risk_score_avoids emptyToken bearishMarket
    moderateProfile rfl (Or.inl rfl)

theorem calcInvestment_spec (t : Token) (mc : MarketConditions)
    (p : SimulationParameters) (B M : ℚ)
    (hB : B = p.maxInvestmentUSD * getRiskMultiplier p.riskTolerance)
    (hM : M = max 0 (min (B * (1 - orQ t.riskScore 0.5) *
      min 1 (tokenLiquidityUSD t / 50000)) (tokenLiquidityUSD t * 0.05))) :
    calculateInvestmentAmount t mc p =
      if M ≥ B * 0.5 then
        SimulationDecision.mk SimulationAction.monitor 0.7 true (some M)
      else if M ≥ B * 0.2 then
        SimulationDecision.mk SimulationAction.investigate 0.6 true (some M)
      else
        SimulationDecision.mk SimulationAction.monitor 0.5 false (some M) := by
  subst hB
  subst hM
  simp only [calculateInvestmentAmount]

/-- C5: when every guard of the simulator passes (no honeypot flag, risk
score below 0.8 and below the profile threshold, enough liquidity, LP
lock satisfied, enough holders; liquidity depth nonnegative), the
decision carries maxInvestmentUSD equal to the clamp of
base x (1 - riskScore) x min(1, liquidity/50000) between 0 and 5% of
the pool depth, where base is the profile cap times the risk-tolerance
multiplier; that amount never exceeds 5% of the pool depth; and the
action is monitor with wouldInvest true at or above half of base,
investigate with wouldInvest true at or above a fifth of base, and
monitor with wouldInvest false below that. -/
theorem C5_investment_branch (t : Token) (mc : MarketConditions)
    (p : SimulationParameters)
    (hhp : tokenIsHoneypot t = false)
    (h08 : ¬ orQ t.riskScore 1 ≥ 0.8)
    (hmax : ¬ orQ t.riskScore 1 ≥ p.maxRiskScore)
    (hliq : ¬ tokenLiquidityUSD t < p.minLiquidityUSD)
    (hlp : (p.requireLPLocked && !tokenLpLocked t) = false)
    (hhold : ¬ tokenHolderCount t < p.minHolders)
    (hpos : 0 ≤ tokenLiquidityUSD t) :
    ∀ B M : ℚ,
      B = p.maxInvestmentUSD * getRiskMultiplier p.riskTolerance →
      M = max 0 (min (B * (1 - orQ t.riskScore 1) *
        min 1 (tokenLiquidityUSD t / 50000)) (tokenLiquidityUSD t * 0.05)) →
      ((simulateResponse t mc p).maxInvestmentUSD = some M ∧
       M ≤ tokenLiquidityUSD t * 0.05 ∧
       (M ≥ B * 0.5 →
         (simulateResponse t mc p).action = SimulationAction.monitor ∧
         (simulateResponse t mc p).wouldInvest = true) ∧
       (¬ M ≥ B * 0.5 → M ≥ B * 0.2 →
         (simulateResponse t mc p).action = SimulationAction.investigate ∧
         (simulateResponse t mc p).wouldInvest = true) ∧
       (¬ M ≥ B * 0.5 → ¬ M ≥ B * 0.2 →
         (simulateResponse t mc p).action = SimulationAction.monitor ∧
         (simulateResponse t mc p).wouldInvest = false)) := by
  intro B M hB hM
  have hrs : orQ t.riskScore 0.5 = orQ t.riskScore 1 := by
    rcases ht : t.riskScore with _ | v
    · exfalso
      apply h08
      rw [ht]
      norm_num [orQ]
    · by_cases hv : v = 0
      · exfalso
        apply h08
        rw [ht]
        norm_num [orQ, hv]
      · simp [orQ, hv]
  have hlp' : ¬(p.requireLPLocked = true ∧ tokenLpLocked t = false) := by
    rintro ⟨h1, h2⟩
    rw [h1, h2] at hlp
    simp at hlp
  have hM' : M = max 0 (min (B * (1 - orQ t.riskScore 0.5) *
      min 1 (tokenLiquidityUSD t / 50000)) (tokenLiquidityUSD t * 0.05)) := by
    rw [hrs]
    exact hM
  have hcalc := calcInvestment_spec t mc p B M hB hM'
  have hstep : simulateResponse t mc p =
      { calculateInvestmentAmount t mc p with
        confidence := adjustConfidenceForMarketConditions
          (calculateInvestmentAmount t mc p).confidence mc } := by
    simp [simulateResponse, makeInvestmentDecision, hhp, h08, hmax, hliq,
      hlp', hhold]
  rw [hcalc] at hstep
  refine ⟨?_, ?_, fun h5 => ?_, fun h5 h2 => ?_, fun h5 h2 => ?_⟩
  · rw [hstep]
    split_ifs <;> rfl
  · rw [hM]
    exact max_le (mul_nonneg hpos (by norm_num)) (min_le_right _ _)
  · rw [hstep, if_pos h5]
    exact ⟨rfl, rfl⟩
  · rw [hstep, if_neg h5, if_pos h2]
    exact ⟨rfl, rfl⟩
  · rw [hstep, if_neg h5, if_neg h2]
    exact ⟨rfl, rfl⟩

/-- Sample token that passes every simulator guard, for the C5
witness. -/
def investableToken : Token :=
  { emptyToken with
    securityFlags := some (SecurityFlags.mk false false false false),
    liquidityInfo := some (LiquidityInfo.mk 50000 true),
    holderAnalysis := some (HolderAnalysis.mk 500 0.1 0 0.8 []),
    riskScore := some 0.2 }

/-- Closed-form witness for C5: moderate profile, 50000 liquidity, risk
score 0.2, giving base 600 and investment 480 with action monitor. -/
theorem C5_witness :
    (simulateResponse investableToken bearishMarket
      moderateProfile).maxInvestmentUSD = some 480 ∧
    (simulateResponse investableToken bearishMarket moderateProfile).action =
      SimulationAction.monitor ∧
    (simulateResponse investableToken bearishMarket
      moderateProfile).wouldInvest = true := by
  have h := C5_investment_branch investableToken bearishMarket moderateProfile
    rfl
    (by norm_num [orQ, investableToken, emptyToken])
    (by norm_num [orQ, investableToken, emptyToken, moderateProfile])
    (by norm_num [tokenLiquidityUSD, orQ, investableToken, emptyToken,
      moderateProfile])
    rfl
    (by norm_num [tokenHolderCount, orQ, investableToken, emptyToken,
      moderateProfile])
    (by norm_num [tokenLiquidityUSD, orQ, investableToken, emptyToken])
    600 480
    (by norm_num [moderateProfile, getRiskMultiplier])
    (by norm_num [orQ, investableToken, emptyToken, tokenLiquidityUSD])
  exact ⟨h.1, (h.2.2.1 (by norm_num)).1, (h.2.2.1 (by norm_num)).2⟩

/-! ## Claims about the backtesting engine -/

/-- C6: the backtest body fails outright, with the no-data error, when
the fetched range contains zero logs, and returns a result (never the
no-data failure) when it contains at least one log. -/
theorem C6_backtest_zero_logs (getToken : String → Option Token)
    (rand : ℕ → ℚ) (sqrtFn : ℚ → ℚ) (logs : List SimulationLog) :
    (logs = [] → runBacktestOnLogs getToken rand sqrtFn logs =
      Except.error "No simulation data available for the specified time range") ∧
    (logs ≠ [] → ∃ r, runBacktestOnLogs getToken rand sqrtFn logs =
      Except.ok r) := by
  constructor
  · intro h
    simp [runBacktestOnLogs, h]
  · intro h
    simp only [runBacktestOnLogs, if_neg h]
    exact ⟨_, rfl⟩

/-- Sample log entry used by the C6 witness. -/
def sampleLog : SimulationLog :=
  { tokenMintAddress := "mint", riskScore := 0.5,
    riskLevel := RiskLevel.medium,
    decision := LogDecision.mk SimulationAction.avoid false none }

/-- Closed-form witness for C6: the empty range errors, a one-log range
succeeds. -/
theorem C6_witness :
    (runBacktestOnLogs (fun _ => none) (fun _ => 0) (fun _ => 0) [] =
      Except.error "No simulation data available for the specified time range") ∧
    ∃ r, runBacktestOnLogs (fun _ => none) (fun _ => 0) (fun _ => 0)
      [sampleLog] = Except.ok r :=
  ⟨(C6_backtest_zero_logs (fun _ => none) (fun _ => 0) (fun _ => 0) []).1 rfl,
   (C6_backtest_zero_logs (fun _ => none) (fun _ => 0) (fun _ => 0)
      [sampleLog]).2 (by simp)⟩

/-- C10: every runBacktest call fails with the no-data error, because
the private getSimulationLogsInRange helper unconditionally returns the
empty list; no call ever produces a BacktestResult. -/
theorem C10_backtest_always_errors (getToken : String → Option Token)
    (rand : ℕ → ℚ) (sqrtFn : ℚ → ℚ) (params : BacktestParameters) :
    runBacktest getToken rand sqrtFn params =
      Except.error "No simulation data available for the specified time range" := by
  simp [runBacktest, getSimulationLogsInRange, runBacktestOnLogs]

/-! ## Claims about the holder analyzer -/

theorem gini_loop_eq (s : List ℚ) (n : ℕ) (l : List ℕ) : ∀ a : ℚ,
    l.foldl (fun acc (i : ℕ) =>
        acc + (2 * ((i : ℚ) + 1) - n - 1) * s.getD i 0) a =
      a + (l.map (fun i : ℕ =>
        (2 * ((i : ℚ) + 1) - n - 1) * s.getD i 0)).sum := by
  induction l with
  | nil => intro a; simp
  | cons i is ih =>
    intro a
    simp only [List.foldl_cons, List.map_cons, List.sum_cons, ih, add_assoc]

theorem list_range_map_sum (g : ℕ → ℚ) (n : ℕ) :
    ((List.range n).map g).sum = ∑ i in Finset.range n, g i := by
  induction n with
  | zero => simp
  | succ k ih =>
    rw [List.range_succ, Finset.sum_range_succ, List.map_append,
      List.sum_append]
    simp [ih]

theorem calculateGini_eq_spec (values : List ℚ) :
    calculateGiniCoefficient values = giniSpecFormula values := by
  have hsum : ∀ l : List ℚ, l.foldl (· + ·) 0 = l.sum := by
    intro l
    simp [List.sum_eq_foldl]
  simp only [calculateGiniCoefficient, giniSpecFormula,
    List.length_insertionSort, hsum]
  by_cases h0 : values.length = 0
  · simp [h0]
  · rw [if_neg h0, if_neg h0]
    by_cases hs : (values.insertionSort (· ≤ ·)).sum = 0
    · rw [if_pos hs, if_pos hs]
    · rw [if_neg hs, if_neg hs]
      congr 1
      rw [gini_loop_eq, zero_add, list_range_map_sum, ← Nat.Ico_succ_right,
        Finset.sum_Ico_eq_sum_range]
      refine Finset.sum_congr (by rw [Nat.succ_sub_one]) fun i _ => ?_
      have hidx : 1 + i - 1 = i := by omega
      rw [hidx]
      push_cast
      ring

/-- C8: the giniCoefficient of calculateDistributionMetrics equals the
rank-weighted formula (the sum over ranks i of (2i - n - 1) times the
i-th smallest share, divided by n times the total) evaluated over the
ascending-sorted percentages of the non-LP, non-burn holders, and is 0
when that filtered list is empty or its percentages sum to 0. -/
theorem C8_gini_matches_formula (holders : List Holder) :
    (calculateDistributionMetrics holders).giniCoefficient =
      giniSpecFormula
        ((holders.filter (fun h => !h.isLP && !h.isBurn)).map
          Holder.percentage) := by
  simp only [calculateDistributionMetrics]
  exact calculateGini_eq_spec _

end SolanaSniper
